import Mathlib

/-!
Shallow embedding of the data-normalization and capacity-sizing engine of
`sizing_app.py` (a Streamlit host-sizing tool), together with theorems checking
the natural-language specification against it.

Modelling conventions:
* a spreadsheet cell is `Cell`: a number, a text string, or an empty/NaN cell;
* `pd.to_numeric(-, errors='coerce')` is `Cell.toNum` (`none` models NaN);
* a pandas `DataFrame` is `Table`: a list of column labels plus rows of cells;
* Python `float` results are modelled by `ℚ` (the inputs and arithmetic used by
  the engine are exact decimal values, so rationals are faithful);
* an operation that can raise an uncaught Python exception is an `Except Unit`
  value; a numeric accumulator that can become NaN is an `Option ℚ` (`none`
  models NaN, which is absorbing for addition and multiplication).
-/

/-- A raw spreadsheet cell: a number, a text string, or an empty (NaN) cell. -/
inductive Cell where
  | num (q : ℚ)
  | str (s : String)
  | empty
deriving DecidableEq, Repr

/-- Digits of a numeral, folded to a natural number. -/
def natFromDigits (l : List Char) : ℕ :=
  l.foldl (fun a c => a * 10 + (c.toNat - 48)) 0

/-- Surrounding whitespace stripped from a character list. -/
def trimChars (l : List Char) : List Char :=
  ((l.dropWhile (·.isWhitespace)).reverse.dropWhile (·.isWhitespace)).reverse

/-- Numeric parsing of a string cell, as `pd.to_numeric(-, errors='coerce')`
does for a plain decimal numeral (optional sign, optional fractional part);
anything else coerces to NaN (`none`). -/
def parseNum (s : String) : Option ℚ :=
  let cs := trimChars s.toList
  let sign : Bool × List Char :=
    match cs with
    | '-' :: r => (true, r)
    | '+' :: r => (false, r)
    | r => (false, r)
  let ip := sign.2.takeWhile (·.isDigit)
  let rest := sign.2.drop ip.length
  let mk (v : ℚ) : Option ℚ := some (if sign.1 then -v else v)
  match rest with
  | [] => if ip.isEmpty then none else mk (natFromDigits ip)
  | '.' :: fp =>
      if fp.all (·.isDigit) && !(ip.isEmpty && fp.isEmpty) then
        mk ((natFromDigits ip : ℚ) + (natFromDigits fp : ℚ) / (10 : ℚ) ^ fp.length)
      else none
  | _ => none

/-- Coerce a cell to a number; `none` models NaN
(`pd.to_numeric(-, errors='coerce')` on one cell). -/
def Cell.toNum : Cell → Option ℚ
  | .num q => some q
  | .str s => parseNum s
  | .empty => none

/-- `astype(str)` on one cell (an empty/NaN cell prints as `"nan"`). -/
def Cell.toStr : Cell → String
  | .num q => toString q
  | .str s => s
  | .empty => "nan"

/-- A structured table: ordered column labels and rows of cells
(a pandas `DataFrame`). A row shorter than the label list reads as empty
cells in the missing positions. -/
structure Table where
  cols : List String
  rows : List (List Cell)
deriving DecidableEq, Repr

/-- Index of the first column with the given label (pandas column lookup). -/
def idxOfCol : List String → String → Option ℕ
  | [], _ => none
  | x :: xs, c => if x = c then some 0 else (idxOfCol xs c).map (· + 1)

/-- The cells of the named column, or `none` when the column is absent. -/
def Table.col (t : Table) (c : String) : Option (List Cell) :=
  (idxOfCol t.cols c).map (fun i => t.rows.map (fun r => r.getD i .empty))

/-- The cells of the named column, `[]` when absent (used only where the
source has already established the column exists). -/
def Table.colCells (t : Table) (c : String) : List Cell :=
  (t.col c).getD []

/-- The named cell of one row of the table (empty when the column is absent). -/
def Table.cellAt (t : Table) (r : List Cell) (c : String) : Cell :=
  match idxOfCol t.cols c with
  | some i => r.getD i .empty
  | none => .empty

/-- Sum of a list of coerced cells, NaN summed as 0 (pandas `.sum()` skips NaN). -/
def sumNum (cells : List Cell) : ℚ :=
  (cells.map (fun x => x.toNum.getD 0)).sum

/-- `safe_sum(df, col)` of `sizing_app.py`: if the column is present, coerce
every cell with `pd.to_numeric(-, errors='coerce')` and sum (NaN counts 0);
otherwise return 0. Total by construction — it never raises. -/
def safe_sum (t : Table) (c : String) : ℚ :=
  match t.col c with
  | some cells => sumNum cells
  | none => 0

/-- `get_rvtools_tb(df, base)` of `sizing_app.py`: search for
`base + " MiB"`, `base + " MB"`, `base + " TB"`, `base + " GB"` in that order;
the first column PRESENT wins (even when its sum is 0); MiB and MB divide by
1048576, GB divides by 1024, TB is returned as is; 0.0 when none is present. -/
def get_rvtools_tb (t : Table) (base : String) : ℚ :=
  if base ++ " MiB" ∈ t.cols then safe_sum t (base ++ " MiB") / 1048576
  else if base ++ " MB" ∈ t.cols then safe_sum t (base ++ " MB") / 1048576
  else if base ++ " TB" ∈ t.cols then safe_sum t (base ++ " TB")
  else if base ++ " GB" ∈ t.cols then safe_sum t (base ++ " GB") / 1024
  else 0

/-- `calc_license_cores(sockets, cores_per_socket)` of `sizing_app.py`. -/
def calc_license_cores (sockets cores_per_socket : ℚ) : ℚ :=
  sockets * max cores_per_socket 16

/-- `a` is an initial segment of `b` (over characters). -/
def listStartsWith : List Char → List Char → Bool
  | [], _ => true
  | _ :: _, [] => false
  | x :: xs, y :: ys => x == y && listStartsWith xs ys

/-- `need` occurs as a contiguous run inside `hay`. -/
def listOccursIn (need : List Char) : List Char → Bool
  | [] => need.isEmpty
  | c :: t => listStartsWith need (c :: t) || listOccursIn need t

/-- Case-insensitive substring test
(`Series.str.contains(sub, case=False)` on one value). -/
def containsCI (s sub : String) : Bool :=
  listOccursIn sub.toLower.toList s.toLower.toList

/-- Keep only the rows satisfying the predicate (a pandas boolean-mask filter:
a new filtered view, the source is not mutated). -/
def Table.filterRows (t : Table) (p : List Cell → Bool) : Table :=
  ⟨t.cols, t.rows.filter p⟩

/-- `str.strip()` on one column label. -/
def trimStr (s : String) : String :=
  ⟨trimChars s.toList⟩

/-- `df.columns = df.columns.str.strip()`. -/
def stripCols (t : Table) : Table :=
  ⟨t.cols.map trimStr, t.rows⟩

/-- Pandas `==` of a cell against a string: only an equal string cell matches
(numbers and NaN compare unequal). -/
def cellEqStr (x : Cell) (s : String) : Bool :=
  match x with
  | .str v => v == s
  | _ => false

/-- Cluster-scope filter used by both parsers:
`if 'Cluster' in df.columns and selected_cluster != "All Clusters":
df = df[df['Cluster'] == selected_cluster]`. -/
def clusterFilter (t : Table) (sel : String) : Table :=
  if "Cluster" ∈ t.cols ∧ sel ≠ "All Clusters" then
    t.filterRows (fun r => cellEqStr (t.cellAt r "Cluster") sel)
  else t

/-- Power-state filter, parameterized by the variant's column name
(`'Powerstate'` for RVTools, `'Power State'` for Live Optics):
rows whose state, as a string, contains `poweredOn` case-insensitively. -/
def powerFilter (col : String) (t : Table) (include_off : Bool) : Table :=
  if col ∈ t.cols ∧ include_off = false then
    t.filterRows (fun r => containsCI (t.cellAt r col).toStr "poweredOn")
  else t

/-- `df_info['Memory GB'] = pd.to_numeric(df_info['Memory'], errors='coerce')
/ 1024` when `'Memory'` is present and `'Memory GB'` is not; a coercion
failure leaves a NaN cell. -/
def addMemoryGB (t : Table) : Table :=
  if "Memory" ∈ t.cols ∧ "Memory GB" ∉ t.cols then
    { cols := t.cols ++ ["Memory GB"],
      rows := t.rows.map (fun r =>
        (r ++ List.replicate (t.cols.length - r.length) Cell.empty) ++
          [match (t.cellAt r "Memory").toNum with
           | some q => Cell.num (q / 1024)
           | none => Cell.empty]) }
  else t

/-- `Series.mode()[0]` over rational values: the most frequent value, ties
resolved to the smallest (pandas returns the modes sorted); `none` on an
empty list (pandas raises `IndexError` on the `[0]`). -/
def modeQ (l : List ℚ) : Option ℚ :=
  l.foldl (fun best x =>
    match best with
    | none => some x
    | some b =>
        if l.count b < l.count x ∨ (l.count x = l.count b ∧ x < b) then some x
        else some b) none

/-- `column.mode()[0]` on a raw cell column, inside the parsers' `try` blocks:
NaN cells are dropped by `mode()`; any text cell makes the surrounding block
fail (mixed-type sorting or the later arithmetic raises, and the enclosing
`except` discards the whole estimate); an empty mode list raises on `[0]`. -/
def modeCol (cells : List Cell) : Except Unit ℚ :=
  if cells.any (fun c => match c with | .str _ => true | _ => false) then
    .error ()
  else
    match modeQ (cells.filterMap Cell.toNum) with
    | some v => .ok v
    | none => .error ()

/-- NUMA block of `process_rvtools` (lines 350-356): modes of `'# CPU'`,
`'Cores per CPU'` and `'# Memory'`; on success, cores estimate is the
cores-per-socket mode and RAM estimate is `(ram_mb_mode / 1024) /
sockets_mode`; any failure before the assignments leaves both estimates 0.
A zero sockets mode raises only in the RAM division, after the cores
estimate is already assigned, so the cores estimate survives. -/
def numaRVTools (t : Table) : ℚ × ℚ :=
  match modeCol (t.colCells "# CPU"), modeCol (t.colCells "Cores per CPU"),
      modeCol (t.colCells "# Memory") with
  | .ok sm, .ok cm, .ok rm => (cm, if sm = 0 then 0 else rm / 1024 / sm)
  | _, _, _ => (0, 0)

/-- Element-wise `df_h['CPU Cores'] / df_h['CPU Sockets']` on one row
(Python integer cells: division by zero raises; NaN propagates). -/
def divCells (a b : Cell) : Except Unit Cell :=
  match a, b with
  | .str _, _ => .error ()
  | _, .str _ => .error ()
  | .num x, .num y => if y = 0 then .error () else .ok (.num (x / y))
  | .empty, .num y => if y = 0 then .error () else .ok .empty
  | .num _, .empty => .ok .empty
  | .empty, .empty => .ok .empty

/-- NUMA block of `process_live_optics` (lines 473-480): sockets mode, then a
derived cores-per-socket column and its mode; the cores estimate is that
mode, while the RAM-per-socket estimate is `(cur_total_ram_gb / len(df_h)) /
sockets_mode` — the MEAN RAM per host divided by the sockets mode. A zero
sockets mode raises only in the RAM division, after the cores estimate is
assigned. -/
def numaLO (t : Table) (totalRamGB : ℚ) : ℚ × ℚ :=
  match modeCol (t.colCells "CPU Sockets") with
  | .error _ => (0, 0)
  | .ok sm =>
      match ((t.colCells "CPU Cores").zip (t.colCells "CPU Sockets")).mapM
          (fun p => divCells p.1 p.2) with
      | .error _ => (0, 0)
      | .ok cps =>
          match modeCol cps with
          | .error _ => (0, 0)
          | .ok cm => (cm, if sm = 0 then 0 else totalRamGB / t.rows.length / sm)

/-- One step of the RVTools licensing loop (lines 358-360), over the raw
`('# CPU', 'Cores per CPU')` cells of one host row:
`cur_lic_cores += row['# CPU'] * max(row['Cores per CPU'], 16)`.
The loop body is NOT wrapped in `try`, so a text cell raises (a `TypeError`
in the comparison or the arithmetic) and aborts the whole parse; a NaN cell
turns the running total into NaN (`none`), which then absorbs every later
addition. -/
def licStepRV (acc : Option ℚ) (r : Cell × Cell) : Except Unit (Option ℚ) :=
  match r.1, r.2 with
  | _, .str _ => .error ()
  | .str _, _ => .error ()
  | .empty, _ => .ok none
  | _, .empty => .ok none
  | .num sv, .num cv => .ok (acc.map (· + sv * max cv 16))

/-- RVTools host-level licensing accrual: fold of `licStepRV` from 0. -/
def licAccrualRV (rows : List (Cell × Cell)) : Except Unit (Option ℚ) :=
  rows.foldlM licStepRV (some 0)

/-- One step of the Live Optics licensing loop (lines 482-484), over the raw
`('CPU Sockets', 'CPU Cores')` cells of one host row:
`try: cur_lic_cores += row['CPU Sockets'] * max(row['CPU Cores'] /
row['CPU Sockets'], 16) except: pass`.
A text cell or a zero socket count raises inside the row's own `try` and the
row is skipped; a NaN cell raises nothing and turns the total into NaN. -/
def licStepLO (acc : Option ℚ) (r : Cell × Cell) : Option ℚ :=
  match r.1, r.2 with
  | .str _, _ => acc
  | _, .str _ => acc
  | .num sv, .num cv => if sv = 0 then acc else acc.map (· + sv * max (cv / sv) 16)
  | .num sv, .empty => if sv = 0 then acc else none
  | .empty, _ => none

/-- Live Optics host-level licensing accrual: fold of `licStepLO` from 0. -/
def licAccrualLO (rows : List (Cell × Cell)) : Option ℚ :=
  rows.foldl licStepLO (some 0)

/-- An uploaded workbook: sheets keyed by name
(`pd.read_excel(-, sheet_name=None)`). -/
def Workbook := List (String × Table)

/-- `name in sheets` / `sheets[name]` / `sheets.get(name)`. -/
def lookupSheet (wb : Workbook) (name : String) : Option Table :=
  (wb.find? (fun p => p.1 == name)).map (·.2)

/-- The vDatastore block of `process_rvtools` (lines 366-378): when the sheet
is present, strip labels, drop rows whose `Name` contains `local`, apply the
cluster filter, then `cap`, `used`, `prov` via `get_rvtools_tb` and
`free = cap - used` (NOT clamped at zero). Returns (cap, used, free). -/
def dsRVTools (wb : Workbook) (sel : String) : ℚ × ℚ × ℚ :=
  match lookupSheet wb "vDatastore" with
  | none => (0, 0, 0)
  | some t0 =>
      let t1 := stripCols t0
      let t2 :=
        if "Name" ∈ t1.cols then
          t1.filterRows (fun r => !(containsCI (t1.cellAt r "Name").toStr "local"))
        else t1
      let t := clusterFilter t2 sel
      let cap := get_rvtools_tb t "Capacity"
      let used := get_rvtools_tb t "In Use"
      (cap, used, cap - used)

/-- The Host Devices block of `process_live_optics` (lines 434-442): when the
sheet is present and non-empty, strip labels and take each of `cap`, `used`,
`free` as its own `(GiB)` column sum divided by 1024. -/
def dsLO (wb : Workbook) : ℚ × ℚ × ℚ :=
  match lookupSheet wb "Host Devices" with
  | none => (0, 0, 0)
  | some t0 =>
      if t0.rows.isEmpty then (0, 0, 0)
      else
        let t := stripCols t0
        (safe_sum t "Capacity (GiB)" / 1024, safe_sum t "Used Capacity (GiB)" / 1024,
          safe_sum t "Free Capacity (GiB)" / 1024)

/-- The Live Optics basis selector (sidebar radio `lo_basis`). -/
inductive LoBasis where
  | p95
  | peak
  | avg
deriving DecidableEq, Repr

/-- The performance block of `process_live_optics` (lines 444-464): when the
`'ESX Performance'` sheet is present, `has_perf` is set `true`
unconditionally; under the 95th-percentile basis a missing
`'95th Percentile CPU (GHz)'` column falls back to 0.95 times the
`'Peak CPU (GHz)'` sum (which is itself 0 when that column is also absent). -/
def perfBlock (wb : Workbook) (sel : String) (basis : LoBasis) : Bool × ℚ :=
  match lookupSheet wb "ESX Performance" with
  | none => (false, 0)
  | some t0 =>
      let t := clusterFilter (stripCols t0) sel
      let ghz :=
        match basis with
        | .p95 =>
            if "95th Percentile CPU (GHz)" ∈ t.cols then
              safe_sum t "95th Percentile CPU (GHz)"
            else safe_sum t "Peak CPU (GHz)" * 0.95
        | .peak => safe_sum t "Peak CPU (GHz)"
        | .avg => safe_sum t "Average CPU (GHz)"
      (true, ghz)

/-- The canonical fact set produced by either parser (the dictionary each
parser returns, restricted to the engine facts the sizing solver and report
consume; `cur_lic_cores` is `Option ℚ` because a NaN host cell can poison the
RVTools running total). -/
structure Facts where
  tot_vms : ℕ
  tot_vcpu : ℚ
  tot_ram : ℚ
  vinfo_prov : ℚ
  vinfo_used : ℚ
  cur_cores : ℚ
  cur_host_count : ℕ
  cur_total_ram_gb : ℚ
  cur_lic_cores : Option ℚ
  cur_numa_cores_est : ℚ
  cur_numa_ram_est : ℚ
  ds_cap : ℚ
  ds_used : ℚ
  ds_free : ℚ
  has_perf : Bool
  perf_ghz_demand : ℚ
deriving Repr

/-- Element-wise `df_h['# CPU'] * df_h['Cores per CPU']` coerced by
`pd.to_numeric(-, errors='coerce')` (line 347-348): the numeric product, NaN
when either side does not coerce. -/
def mulNum (a b : Cell) : Option ℚ :=
  match a.toNum, b.toNum with
  | some x, some y => some (x * y)
  | _, _ => none

/-- The vHost block of `process_rvtools` (lines 334-360):
(cur_cores, cur_host_count, cur_total_ram_gb, numa estimates, licensing).
`df_h['TC']` and the direct `df_h['# Memory']` access raise `KeyError` when
a needed column is missing from a non-empty host sheet, and the unguarded
licensing loop can abort on a text cell — an `error` result models the
uncaught exception reaching the top-level handler. -/
def vHostBlock (wb : Workbook) (sel : String) :
    Except Unit (ℚ × ℕ × ℚ × (ℚ × ℚ) × Option ℚ) :=
  match lookupSheet wb "vHost" with
  | none => .ok (0, 0, 0, (0, 0), some 0)
  | some h0 =>
      let h := clusterFilter (stripCols h0) sel
      let n := h.rows.length
      if h.rows.isEmpty then .ok (0, n, 0, (0, 0), some 0)
      else
        if "# CPU" ∈ h.cols ∧ "Cores per CPU" ∈ h.cols then
          if "# Memory" ∈ h.cols then
            let tc := ((h.colCells "# CPU").zip (h.colCells "Cores per CPU")).map
              (fun p => mulNum p.1 p.2)
            let cur_cores := (tc.map (fun x => x.getD 0)).sum
            let ram := sumNum (h.colCells "# Memory") / 1024
            let numa := numaRVTools h
            match licAccrualRV ((h.colCells "# CPU").zip (h.colCells "Cores per CPU")) with
            | .error _ => .error ()
            | .ok lic => .ok (cur_cores, n, ram, numa, lic)
          else .error ()
        else .error ()

/-- `process_rvtools(sheets, selected_cluster, include_off)` (lines 322-417),
restricted to the engine facts. The `vInfo` sheet is filtered by cluster and
power state and extended with a derived `'Memory GB'` column; the vHost,
vDatastore and max-VM blocks follow the source; the max-VM block's
`df_info['CPUs'].max()` / `df_info['Memory GB'].max()` raise `KeyError` on a
non-empty `vInfo` lacking those columns. -/
def processRVTools (wb : Workbook) (sel : String) (include_off : Bool) :
    Except Unit Facts := do
  match lookupSheet wb "vInfo" with
  | none => .error ()
  | some i0 =>
    let i1 := powerFilter "Powerstate" (clusterFilter (stripCols i0) sel) include_off
    let df := addMemoryGB i1
    let (cur_cores, cur_host_count, cur_total_ram_gb, numa, lic) ← vHostBlock wb sel
    let ds := dsRVTools wb sel
    if ¬ df.rows.isEmpty ∧ ("CPUs" ∉ df.cols ∨ "Memory GB" ∉ df.cols) then
      .error ()
    else
      .ok { tot_vms := df.rows.length
            tot_vcpu := safe_sum df "CPUs"
            tot_ram := safe_sum df "Memory GB"
            vinfo_prov := get_rvtools_tb df "Provisioned"
            vinfo_used := get_rvtools_tb df "In Use"
            cur_cores, cur_host_count, cur_total_ram_gb
            cur_lic_cores := lic
            cur_numa_cores_est := numa.1
            cur_numa_ram_est := numa.2
            ds_cap := ds.1, ds_used := ds.2.1, ds_free := ds.2.2
            has_perf := false
            perf_ghz_demand := 0 }

/-- `process_live_optics(sheets, selected_cluster, include_off, perf_metric)`
(lines 419-518), restricted to the engine facts. The `VMs` sheet is filtered
by cluster and power state; `'ESX Hosts'` defaults to an empty frame; the
Host Devices, performance, host-supply, NUMA and licensing blocks follow the
source; the max-VM block's `df_vm['Virtual CPU'].max()` /
`df_vm['Provisioned Memory (MiB)'].max()` raise `KeyError` on a non-empty
`VMs` sheet lacking those columns. -/
def processLiveOptics (wb : Workbook) (sel : String) (include_off : Bool)
    (basis : LoBasis) : Except Unit Facts := do
  match lookupSheet wb "VMs" with
  | none => .error ()
  | some v0 =>
    let dv := powerFilter "Power State" (clusterFilter (stripCols v0) sel) include_off
    let h0 := (lookupSheet wb "ESX Hosts").getD ⟨[], []⟩
    let h := clusterFilter (stripCols h0) sel
    let ds := dsLO wb
    let perf := perfBlock wb sel basis
    let cur_cores := safe_sum h "CPU Cores"
    let cur_total_ram_gb := safe_sum h "Memory (KiB)" / 1024 / 1024
    let numa := if h.rows.isEmpty then (0, 0) else numaLO h cur_total_ram_gb
    let lic : Option ℚ :=
      if h.rows.isEmpty then some 0
      else if "CPU Sockets" ∈ h.cols ∧ "CPU Cores" ∈ h.cols then
        licAccrualLO ((h.colCells "CPU Sockets").zip (h.colCells "CPU Cores"))
      else some 0
    if ¬ dv.rows.isEmpty ∧ ("Virtual CPU" ∉ dv.cols ∨ "Provisioned Memory (MiB)" ∉ dv.cols) then
      .error ()
    else
      .ok { tot_vms := dv.rows.length
            tot_vcpu := safe_sum dv "Virtual CPU"
            tot_ram := safe_sum dv "Provisioned Memory (MiB)" / 1024
            vinfo_prov := safe_sum dv "Virtual Disk Size (MiB)" / 1048576
            vinfo_used := safe_sum dv "Virtual Disk Used (MiB)" / 1048576
            cur_cores, cur_host_count := h.rows.length, cur_total_ram_gb
            cur_lic_cores := lic
            cur_numa_cores_est := numa.1
            cur_numa_ram_est := numa.2
            ds_cap := ds.1, ds_used := ds.2.1, ds_free := ds.2.2
            has_perf := perf.1
            perf_ghz_demand := perf.2 }

/-- The two recognized source formats. -/
inductive SourceType where
  | RVTools
  | LiveOptics
deriving DecidableEq, Repr

/-- Format sniffing (lines 524-534): `'vInfo'` present selects RVTools, else
`'VMs'` together with `'ESX Hosts'` selects Live Optics, else the file is
unknown (`st.error` + `st.stop`: a fatal input error, no result). -/
def detectSource (wb : Workbook) : Option SourceType :=
  if (lookupSheet wb "vInfo").isSome then some .RVTools
  else if (lookupSheet wb "VMs").isSome ∧ (lookupSheet wb "ESX Hosts").isSome then
    some .LiveOptics
  else none

/-- Detection followed by the selected parser: the processing part of the
top-level `try` block. -/
def runPipeline (wb : Workbook) (sel : String) (include_off : Bool)
    (basis : LoBasis) : Except Unit Facts :=
  match detectSource wb with
  | none => .error ()
  | some .RVTools => processRVTools wb sel include_off
  | some .LiveOptics => processLiveOptics wb sel include_off basis

/-- The user-tunable sizing parameters (sidebar widgets), with buffers kept
as percentages exactly as in the source. -/
structure Params where
  tgt_sockets : ℕ
  tgt_cores : ℕ
  tgt_ram : ℚ
  tgt_clock : ℚ
  vcpu_ratio : ℚ
  cpu_buffer : ℚ
  ram_buffer : ℚ
  min_hosts : ℤ
  ha_nodes : ℤ
  growth : ℚ
  years : ℕ
deriving Repr

/-- `host_cap_cores = tgt_sockets * tgt_cores`. -/
def host_cap_cores (p : Params) : ℕ := p.tgt_sockets * p.tgt_cores

/-- `eff_host_cores = host_cap_cores * (1 - cpu_buffer/100)` (line 548). -/
def eff_host_cores (p : Params) : ℚ :=
  (host_cap_cores p : ℚ) * (1 - p.cpu_buffer / 100)

/-- `eff_host_ram = tgt_ram * (1 - ram_buffer/100)` (line 549). -/
def eff_host_ram (p : Params) : ℚ :=
  p.tgt_ram * (1 - p.ram_buffer / 100)

/-- `hosts_for_cpu = math.ceil(tot_vcpu / vcpu_ratio / eff_host_cores)`
(line 551). -/
def hosts_for_cpu (p : Params) (tot_vcpu : ℚ) : ℤ :=
  ⌈tot_vcpu / p.vcpu_ratio / eff_host_cores p⌉

/-- `hosts_for_ram = math.ceil(tot_ram / eff_host_ram)` (line 552). -/
def hosts_for_ram (p : Params) (tot_ram : ℚ) : ℤ :=
  ⌈tot_ram / eff_host_ram p⌉

/-- The binding constraint (lines 554-563): `"CPU"` exactly when
`hosts_for_cpu > hosts_for_ram`, otherwise — ties included — `"RAM"`. -/
def constraint (p : Params) (v r : ℚ) : String :=
  if hosts_for_ram p r < hosts_for_cpu p v then "CPU" else "RAM"

/-- The active raw host count chosen in the same branch (lines 554-563). -/
def raw_hosts (p : Params) (v r : ℚ) : ℤ :=
  if hosts_for_ram p r < hosts_for_cpu p v then hosts_for_cpu p v
  else hosts_for_ram p r

/-- Compound growth multiplier `(1 + growth) ** years` (line 565). -/
def growth_mult (p : Params) : ℚ := (1 + p.growth) ^ p.years

/-- `fut_raw_hosts = max(fut_hosts_for_cpu, fut_hosts_for_ram)` on the
growth-projected workload (lines 566-569). -/
def fut_raw_hosts (p : Params) (v r : ℚ) : ℤ :=
  max (hosts_for_cpu p (v * growth_mult p)) (hosts_for_ram p (r * growth_mult p))

/-- `hosts_now = max(int(raw_hosts) + ha_nodes, min_hosts)` (line 571). -/
def hosts_now (p : Params) (v r : ℚ) : ℤ :=
  max (raw_hosts p v r + p.ha_nodes) p.min_hosts

/-- `hosts_fut = max(int(fut_raw_hosts) + ha_nodes, min_hosts)` (line 572). -/
def hosts_fut (p : Params) (v r : ℚ) : ℤ :=
  max (fut_raw_hosts p v r + p.ha_nodes) p.min_hosts

/-- The sidebar defaults: 2 sockets × 24 cores, 1024 GB RAM, 2.5 GHz, ratio
5.0, 10 % CPU and RAM buffers, minimum cluster 3, HA 1, 10 % growth over
3 years. -/
def defaultParams : Params :=
  { tgt_sockets := 2, tgt_cores := 24, tgt_ram := 1024, tgt_clock := 2.5
    vcpu_ratio := 5, cpu_buffer := 10, ram_buffer := 10
    min_hosts := 3, ha_nodes := 1, growth := 0.1, years := 3 }


lemma hosts_for_cpu_zero (p : Params) : hosts_for_cpu p 0 = 0 := by
  simp [hosts_for_cpu]

lemma hosts_for_ram_zero (p : Params) : hosts_for_ram p 0 = 0 := by
  simp [hosts_for_ram]

/-- C1 (amended): the reported binding constraint is whichever of the two raw
host counts is larger, but when `hostsForCPU == hostsForRAM` the `>`
comparison falls into the `else` branch, so the constraint reported on a tie
is "RAM", not "CPU". -/
theorem C1_binding_constraint (p : Params) (v r : ℚ) :
    raw_hosts p v r = max (hosts_for_cpu p v) (hosts_for_ram p r)
    ∧ (hosts_for_ram p r < hosts_for_cpu p v → constraint p v r = "CPU")
    ∧ (hosts_for_cpu p v ≤ hosts_for_ram p r → constraint p v r = "RAM") := by
  refine ⟨?_, ?_, ?_⟩
  · unfold raw_hosts
    rcases lt_or_le (hosts_for_ram p r) (hosts_for_cpu p v) with h | h
    · rw [if_pos h, max_eq_left h.le]
    · rw [if_neg (not_lt.mpr h), max_eq_right h]
  · intro h
    unfold constraint
    rw [if_pos h]
  · intro h
    unfold constraint
    rw [if_neg (not_lt.mpr h)]

/-- C1 counterexample: with the default parameters and an empty workload the
two raw host counts are equal, and the constraint reported is "RAM" — the
claim predicts "CPU" on a tie. -/
theorem C1_counterexample :
    hosts_for_cpu defaultParams 0 = hosts_for_ram defaultParams 0
    ∧ constraint defaultParams 0 0 = "RAM" := by
  constructor
  · rw [hosts_for_cpu_zero, hosts_for_ram_zero]
  · unfold constraint
    rw [hosts_for_cpu_zero, hosts_for_ram_zero]
    simp

/-- Witness for C1: the amended theorem applied at the default parameters and
an empty workload. -/
theorem C1_witness :
    raw_hosts defaultParams 0 0
      = max (hosts_for_cpu defaultParams 0) (hosts_for_ram defaultParams 0)
    ∧ constraint defaultParams 0 0 = "RAM" :=
  ⟨(C1_binding_constraint defaultParams 0 0).1,
    (C1_binding_constraint defaultParams 0 0).2.2
      (by rw [hosts_for_cpu_zero, hosts_for_ram_zero])⟩

/-- C2 (confirmed): `hosts_now = max(raw_hosts + ha_nodes, min_hosts)`, hence
the result is at least the minimum cluster size and at least the HA-inflated
raw count; the same floor applies to the future host count; and an empty
workload with `min_hosts = 3`, `ha_nodes = 1` yields 3 hosts. -/
theorem C2_ha_and_minimum_floor (p : Params) (v r : ℚ)
    (hR : 0 < p.vcpu_ratio) (hC : 0 < eff_host_cores p) (hM : 0 < eff_host_ram p) :
    hosts_now p v r = max (raw_hosts p v r + p.ha_nodes) p.min_hosts
    ∧ p.min_hosts ≤ hosts_now p v r
    ∧ raw_hosts p v r + p.ha_nodes ≤ hosts_now p v r
    ∧ hosts_fut p v r = max (fut_raw_hosts p v r + p.ha_nodes) p.min_hosts
    ∧ p.min_hosts ≤ hosts_fut p v r
    ∧ fut_raw_hosts p v r + p.ha_nodes ≤ hosts_fut p v r
    ∧ (v = 0 → r = 0 → p.min_hosts = 3 → p.ha_nodes = 1 → hosts_now p v r = 3) := by
  refine ⟨rfl, le_max_right _ _, le_max_left _ _, rfl, le_max_right _ _,
    le_max_left _ _, ?_⟩
  intro hv hr hmin hha
  subst hv hr
  unfold hosts_now
  rw [hmin, hha]
  unfold raw_hosts
  rw [hosts_for_cpu_zero, hosts_for_ram_zero]
  simp

/-- Witness for C2: the theorem applied at the default parameters and an empty
workload, with the positivity hypotheses discharged concretely. -/
theorem C2_witness :
    hosts_now defaultParams 0 0 = 3
    ∧ defaultParams.min_hosts ≤ hosts_now defaultParams 0 0 :=
  ⟨(C2_ha_and_minimum_floor defaultParams 0 0 (by norm_num [defaultParams])
      (by norm_num [eff_host_cores, host_cap_cores, defaultParams])
      (by norm_num [eff_host_ram, defaultParams])).2.2.2.2.2.2 rfl rfl rfl rfl,
    (C2_ha_and_minimum_floor defaultParams 0 0 (by norm_num [defaultParams])
      (by norm_num [eff_host_cores, host_cap_cores, defaultParams])
      (by norm_num [eff_host_ram, defaultParams])).2.1⟩

/-- C6 (confirmed): the raw CPU host count is
`ceil(V / R / (C * (1 - B)))` for `C` the physical cores per host and `B` the
CPU buffer fraction, and for fixed `R`, `B`, `C` it is monotone non-decreasing
in the total vCPU demand. -/
theorem C6_cpu_host_count (p : Params) (v w : ℚ)
    (hR : 0 < p.vcpu_ratio) (hC : (0 : ℚ) < (host_cap_cores p : ℚ))
    (hB0 : 0 ≤ p.cpu_buffer / 100) (hB1 : p.cpu_buffer / 100 < 1)
    (hvw : v ≤ w) :
    hosts_for_cpu p v
      = ⌈v / p.vcpu_ratio / ((host_cap_cores p : ℚ) * (1 - p.cpu_buffer / 100))⌉
    ∧ hosts_for_cpu p v ≤ hosts_for_cpu p w := by
  constructor
  · rfl
  · apply Int.ceil_le_ceil
    have heff : (0 : ℚ) < eff_host_cores p := by
      have h1 : (0 : ℚ) < 1 - p.cpu_buffer / 100 := by linarith
      exact mul_pos hC h1
    gcongr

/-- Witness for C6: the theorem applied at the default parameters with demands
100 and 200. -/
theorem C6_witness :
    hosts_for_cpu defaultParams 100
      = ⌈(100 : ℚ) / defaultParams.vcpu_ratio
          / ((host_cap_cores defaultParams : ℚ) * (1 - defaultParams.cpu_buffer / 100))⌉
    ∧ hosts_for_cpu defaultParams 100 ≤ hosts_for_cpu defaultParams 200 :=
  C6_cpu_host_count defaultParams 100 200 (by norm_num [defaultParams])
    (by norm_num [host_cap_cores, defaultParams]) (by norm_num [defaultParams])
    (by norm_num [defaultParams]) (by norm_num)

lemma idxOfCol_eq_none_of_not_mem (l : List String) (c : String) (h : c ∉ l) :
    idxOfCol l c = none := by
  induction l with
  | nil => rfl
  | cons x xs ih =>
      simp only [List.mem_cons, not_or] at h
      simp [idxOfCol, h.1, ih h.2, Ne.symm h.1]

lemma idxOfCol_isSome_of_mem (l : List String) (c : String) (h : c ∈ l) :
    (idxOfCol l c).isSome := by
  induction l with
  | nil => simp at h
  | cons x xs ih =>
      by_cases hx : x = c
      · simp [idxOfCol, hx]
      · rcases List.mem_cons.mp h with h1 | h2
        · exact absurd h1.symm hx
        · simp [idxOfCol, hx, ih h2]

/-- C7 (confirmed): column aggregation returns exactly 0 when the column is
absent, and otherwise the sum of the column with every cell coerced
(`none`, i.e. non-numeric or empty, counting as 0); being a total function
of the table it never raises. -/
theorem C7_aggregation (t : Table) (c : String) :
    (c ∉ t.cols → safe_sum t c = 0)
    ∧ (c ∈ t.cols → ∃ cells, t.col c = some cells
        ∧ safe_sum t c = (cells.map (fun x => x.toNum.getD 0)).sum) := by
  constructor
  · intro h
    unfold safe_sum Table.col
    rw [idxOfCol_eq_none_of_not_mem t.cols c h]
    rfl
  · intro h
    have hs := idxOfCol_isSome_of_mem t.cols c h
    rcases Option.isSome_iff_exists.mp hs with ⟨i, hi⟩
    refine ⟨t.rows.map (fun r => r.getD i .empty), ?_, ?_⟩
    · unfold Table.col
      rw [hi]
      rfl
    · unfold safe_sum Table.col
      rw [hi]
      rfl

/-- A small table for the aggregation witness: a numeric, a non-numeric and
an empty cell in column `"CPUs"`. -/
def aggWitnessTable : Table :=
  ⟨["CPUs"], [[.num 2], [.str "bad"], [.empty]]⟩

/-- Witness for C7: the theorem applied to a concrete table, on a missing
column and on a present column holding a non-numeric and an empty cell. -/
theorem C7_witness :
    safe_sum aggWitnessTable "Missing" = 0
    ∧ safe_sum aggWitnessTable "CPUs" = 2 := by
  refine ⟨(C7_aggregation aggWitnessTable "Missing").1 (by decide), ?_⟩
  rcases (C7_aggregation aggWitnessTable "CPUs").2 (by decide) with ⟨cells, hc, hsum⟩
  rw [hsum]
  have hcells : cells = [Cell.num 2, Cell.str "bad", Cell.empty] := by
    have h2 : aggWitnessTable.col "CPUs"
        = some [Cell.num 2, Cell.str "bad", Cell.empty] := by
      simp [Table.col, aggWitnessTable, idxOfCol]
    rw [h2] at hc
    exact (Option.some_inj.mp hc).symm
  rw [hcells]
  have hbad : parseNum "bad" = none := by decide
  simp [Cell.toNum, hbad]

/-- The capacity normalizer as the specification words it, used only to
compare the spec against `get_rvtools_tb`: try the suffix variants MiB, MB,
GiB, GB, TB in that order and return the first whose AGGREGATED SUM is
nonzero (MiB/MB divided by 1048576, GiB/GB by 1024, TB unchanged); zero when
no variant matches or all sum to zero (a missing column aggregates to zero,
so the two conditions coincide). -/
def specCapacityInTB (t : Table) (base : String) : ℚ :=
  if safe_sum t (base ++ " MiB") ≠ 0 then safe_sum t (base ++ " MiB") / 1048576
  else if safe_sum t (base ++ " MB") ≠ 0 then safe_sum t (base ++ " MB") / 1048576
  else if safe_sum t (base ++ " GiB") ≠ 0 then safe_sum t (base ++ " GiB") / 1024
  else if safe_sum t (base ++ " GB") ≠ 0 then safe_sum t (base ++ " GB") / 1024
  else if safe_sum t (base ++ " TB") ≠ 0 then safe_sum t (base ++ " TB")
  else 0

/-- A table holding an `"X MB"` column summing to zero next to an `"X GB"`
column summing to 1024. -/
def capMBGBTable : Table := ⟨["X MB", "X GB"], [[.num 0, .num 1024]]⟩

/-- One `"X MiB"` column summing to 1048576. -/
def capMiBTable : Table := ⟨["X MiB"], [[.num 1048576]]⟩

/-- One `"X GB"` column summing to 1024. -/
def capGBTable : Table := ⟨["X GB"], [[.num 1024]]⟩

/-- C4 counterexample: on a table whose `MB` column sums to zero beside a
`GB` column summing to 1024, the claim's first-nonzero-sum procedure yields
1.0 TB but the code stops at the first PRESENT column and returns 0. -/
theorem C4_counterexample :
    get_rvtools_tb capMBGBTable "X" = 0 ∧ specCapacityInTB capMBGBTable "X" = 1 := by
  have e1 : ("X" : String) ++ " MiB" = "X MiB" := rfl
  have e2 : ("X" : String) ++ " MB" = "X MB" := rfl
  have e3 : ("X" : String) ++ " TB" = "X TB" := rfl
  have e4 : ("X" : String) ++ " GB" = "X GB" := rfl
  have e5 : ("X" : String) ++ " GiB" = "X GiB" := rfl
  constructor
  · simp [get_rvtools_tb, e1, e2, e3, e4, capMBGBTable, safe_sum, Table.col,
      idxOfCol, sumNum, Cell.toNum]
  · simp [specCapacityInTB, e1, e2, e3, e4, e5, capMBGBTable, safe_sum,
      Table.col, idxOfCol, sumNum, Cell.toNum]

/-- C4 (amended): the normalizer tries the suffixes MiB, MB, TB, GB in that
order (no GiB variant, TB ahead of GB) and returns the conversion of the
first variant whose COLUMN IS PRESENT, even when its sum is zero — MiB and
MB divided by 1048576, GB by 1024, TB unchanged, 0 when none is present; in
particular 1048576 MiB and 1024 GB each convert to exactly 1.0 TB. -/
theorem C4_capacity_normalizer (t : Table) (base : String) :
    (base ++ " MiB" ∈ t.cols →
      get_rvtools_tb t base = safe_sum t (base ++ " MiB") / 1048576)
    ∧ (base ++ " MiB" ∉ t.cols → base ++ " MB" ∈ t.cols →
      get_rvtools_tb t base = safe_sum t (base ++ " MB") / 1048576)
    ∧ (base ++ " MiB" ∉ t.cols → base ++ " MB" ∉ t.cols → base ++ " TB" ∈ t.cols →
      get_rvtools_tb t base = safe_sum t (base ++ " TB"))
    ∧ (base ++ " MiB" ∉ t.cols → base ++ " MB" ∉ t.cols → base ++ " TB" ∉ t.cols →
        base ++ " GB" ∈ t.cols →
      get_rvtools_tb t base = safe_sum t (base ++ " GB") / 1024)
    ∧ (base ++ " MiB" ∉ t.cols → base ++ " MB" ∉ t.cols → base ++ " TB" ∉ t.cols →
        base ++ " GB" ∉ t.cols → get_rvtools_tb t base = 0)
    ∧ get_rvtools_tb capMiBTable "X" = 1
    ∧ get_rvtools_tb capGBTable "X" = 1 := by
  refine ⟨?_, ?_, ?_, ?_, ?_, ?_, ?_⟩
  · intro h1
    simp [get_rvtools_tb, h1]
  · intro h1 h2
    simp [get_rvtools_tb, h1, h2]
  · intro h1 h2 h3
    simp [get_rvtools_tb, h1, h2, h3]
  · intro h1 h2 h3 h4
    simp [get_rvtools_tb, h1, h2, h3, h4]
  · intro h1 h2 h3 h4
    simp [get_rvtools_tb, h1, h2, h3, h4]
  · have e1 : ("X" : String) ++ " MiB" = "X MiB" := rfl
    simp [get_rvtools_tb, e1, capMiBTable, safe_sum, Table.col, idxOfCol,
      sumNum, Cell.toNum]
  · have e1 : ("X" : String) ++ " MiB" = "X MiB" := rfl
    have e2 : ("X" : String) ++ " MB" = "X MB" := rfl
    have e3 : ("X" : String) ++ " TB" = "X TB" := rfl
    have e4 : ("X" : String) ++ " GB" = "X GB" := rfl
    simp [get_rvtools_tb, e1, e2, e3, e4, capGBTable, safe_sum, Table.col,
      idxOfCol, sumNum, Cell.toNum]

/-- Witness for C4: the amended theorem applied to the two concrete
round-trip tables, discharging the column-presence hypotheses. -/
theorem C4_witness :
    get_rvtools_tb capMiBTable "X" = safe_sum capMiBTable ("X" ++ " MiB") / 1048576
    ∧ get_rvtools_tb capGBTable "X" = safe_sum capGBTable ("X" ++ " GB") / 1024 :=
  ⟨(C4_capacity_normalizer capMiBTable "X").1 (by decide),
    (C4_capacity_normalizer capGBTable "X").2.2.2.1 (by decide) (by decide)
      (by decide) (by decide)⟩

lemma licStepLO_str (b : Cell × Cell)
    (hb : (∃ s, b.1 = Cell.str s) ∨ (∃ s, b.2 = Cell.str s)) (acc : Option ℚ) :
    licStepLO acc b = acc := by
  obtain ⟨b1, b2⟩ := b
  rcases hb with ⟨s, h⟩ | ⟨s, h⟩
  · cases h
    cases b2 <;> simp [licStepLO]
  · cases h
    cases b1 <;> simp [licStepLO]

lemma licStepRV_str (b : Cell × Cell)
    (hb : (∃ s, b.1 = Cell.str s) ∨ (∃ s, b.2 = Cell.str s)) (acc : Option ℚ) :
    licStepRV acc b = .error () := by
  obtain ⟨b1, b2⟩ := b
  rcases hb with ⟨s, h⟩ | ⟨s, h⟩
  · cases h
    cases b2 <;> simp [licStepRV]
  · cases h
    cases b1 <;> simp [licStepRV]

lemma foldlM_licStepRV_error (b : Cell × Cell)
    (hb : ∀ acc, licStepRV acc b = .error ()) (post : List (Cell × Cell)) :
    ∀ (pre : List (Cell × Cell)) (acc0 : Option ℚ),
      List.foldlM licStepRV acc0 (pre ++ b :: post) = .error () := by
  intro pre
  induction pre with
  | nil =>
      intro acc0
      rw [List.nil_append, List.foldlM_cons, hb acc0]
      rfl
  | cons p ps ih =>
      intro acc0
      rw [List.cons_append, List.foldlM_cons]
      cases h : licStepRV acc0 p with
      | error e =>
          cases e
          rfl
      | ok a =>
          exact ih a

lemma licAccrualRV_nums (l : List (ℚ × ℚ)) :
    ∀ a : ℚ,
      List.foldlM licStepRV (some a) (l.map (fun x => (Cell.num x.1, Cell.num x.2)))
        = .ok (some (a + (l.map (fun x => x.1 * max x.2 16)).sum)) := by
  induction l with
  | nil =>
      intro a
      simp [List.foldlM]
      rfl
  | cons x xs ih =>
      intro a
      rw [List.map_cons, List.foldlM_cons]
      simp only [licStepRV, Option.map_some']
      rw [List.map_cons, List.sum_cons, ← add_assoc]
      exact ih (a + x.1 * max x.2 16)

lemma licAccrualLO_nums (l : List (ℚ × ℚ)) (hl : ∀ x ∈ l, x.1 ≠ 0) :
    ∀ a : ℚ,
      List.foldl licStepLO (some a) (l.map (fun x => (Cell.num x.1, Cell.num x.2)))
        = some (a + (l.map (fun x => x.1 * max (x.2 / x.1) 16)).sum) := by
  induction l with
  | nil =>
      intro a
      simp
  | cons x xs ih =>
      intro a
      rw [List.map_cons, List.foldl_cons]
      have hx : x.1 ≠ 0 := hl x (List.mem_cons_self x xs)
      simp only [licStepLO, if_neg hx, Option.map_some']
      rw [List.map_cons, List.sum_cons, ← add_assoc]
      exact ih (fun y hy => hl y (List.mem_cons_of_mem x hy)) (a + x.1 * max (x.2 / x.1) 16)

/-- C3 (amended): in the Live Optics variant each well-formed host row
contributes `sockets * max(total_cores / sockets, 16)` and a row with a
non-numeric field is skipped without disturbing the rest; in the RVTools
variant well-formed rows contribute `sockets * max(cores_per_socket, 16)`,
but the loop has no per-row guard, so a non-numeric field aborts the whole
aggregation (the exception is only caught by the top-level handler and no
result is produced). -/
theorem C3_licensing_accrual (pre post : List (Cell × Cell)) (b : Cell × Cell)
    (hb : (∃ s, b.1 = Cell.str s) ∨ (∃ s, b.2 = Cell.str s))
    (l : List (ℚ × ℚ)) (hl : ∀ x ∈ l, x.1 ≠ 0) :
    licAccrualLO (pre ++ b :: post) = licAccrualLO (pre ++ post)
    ∧ licAccrualRV (pre ++ b :: post) = .error ()
    ∧ licAccrualRV (l.map (fun x => (Cell.num x.1, Cell.num x.2)))
        = .ok (some ((l.map (fun x => x.1 * max x.2 16)).sum))
    ∧ licAccrualLO (l.map (fun x => (Cell.num x.1, Cell.num x.2)))
        = some ((l.map (fun x => x.1 * max (x.2 / x.1) 16)).sum) := by
  refine ⟨?_, ?_, ?_, ?_⟩
  · unfold licAccrualLO
    rw [List.foldl_append, List.foldl_append, List.foldl_cons,
      licStepLO_str b hb]
  · exact foldlM_licStepRV_error b (licStepRV_str b hb) post pre (some 0)
  · rw [licAccrualRV, licAccrualRV_nums l 0, zero_add]
  · rw [licAccrualLO, licAccrualLO_nums l hl 0, zero_add]

/-- C3 counterexample: on the claim's example rows the RVTools accrual does
not total 56 — the non-numeric middle row aborts the whole aggregation. -/
theorem C3_counterexample :
    licAccrualRV [(Cell.num 2, Cell.num 20), (Cell.num 2, Cell.str "bad"),
      (Cell.num 1, Cell.num 16)] = .error () := by
  rfl

/-- Witness for C3: the amended theorem applied at the example rows (Live
Optics column convention: total cores 40 over 2 sockets is 20 cores per
socket), with the resulting Live Optics total evaluated to 56. -/
theorem C3_witness :
    licAccrualLO [(Cell.num 2, Cell.num 40), (Cell.num 2, Cell.str "bad"),
        (Cell.num 1, Cell.num 16)]
      = licAccrualLO [(Cell.num 2, Cell.num 40), (Cell.num 1, Cell.num 16)]
    ∧ licAccrualRV [(Cell.num 2, Cell.num 40), (Cell.num 2, Cell.str "bad"),
        (Cell.num 1, Cell.num 16)] = .error ()
    ∧ licAccrualLO [(Cell.num 2, Cell.num 40), (Cell.num 1, Cell.num 16)]
      = some 56 := by
  have h := C3_licensing_accrual [(Cell.num 2, Cell.num 40)]
    [(Cell.num 1, Cell.num 16)] (Cell.num 2, Cell.str "bad")
    (Or.inr ⟨"bad", rfl⟩) [((2 : ℚ), (40 : ℚ)), (1, 16)]
    (by
      intro x hx
      rcases List.mem_cons.mp hx with h1 | h2
      · rw [h1]; norm_num
      · rcases List.mem_cons.mp h2 with h3 | h4
        · rw [h3]; norm_num
        · simp at h4)
  refine ⟨h.1, h.2.1, ?_⟩
  have h4 := h.2.2.2
  simp only [List.map_cons, List.map_nil] at h4
  rw [h4]
  have hm1 : max ((40 : ℚ) / 2) 16 = 20 := by norm_num [max_def]
  have hm2 : max ((16 : ℚ) / 1) 16 = 16 := by norm_num [max_def]
  rw [hm1, hm2]
  norm_num

/-- The Live Optics RAM-per-socket estimate as the specification words it
(statistical mode of the per-host RAM configuration, not the mean), used only
to compare the spec against `numaLO`: the mode of the per-host
`'Memory (KiB)'` values converted to GB, divided by the sockets mode. -/
def specNumaRamLO (t : Table) : ℚ :=
  match modeCol (t.colCells "CPU Sockets"), modeCol (t.colCells "Memory (KiB)") with
  | .ok sm, .ok rm => if sm = 0 then 0 else rm / 1024 / 1024 / sm
  | _, _ => 0

/-- A Live Optics host sheet: three one-socket eight-core hosts with 100,
100 and 400 GB of RAM (in KiB). -/
def numaLOTable : Table :=
  ⟨["CPU Sockets", "CPU Cores", "Memory (KiB)"],
   [[.num 1, .num 8, .num 104857600],
    [.num 1, .num 8, .num 104857600],
    [.num 1, .num 8, .num 419430400]]⟩

/-- An RVTools host sheet: two hosts with 2 sockets, 10 cores per socket and
512 GB of RAM (in MB). -/
def numaRVTable : Table :=
  ⟨["# CPU", "Cores per CPU", "# Memory"],
   [[.num 2, .num 10, .num 524288], [.num 2, .num 10, .num 524288]]⟩

/-- C5 counterexample: on three Live Optics hosts with 100, 100 and 400 GB of
RAM, the code's RAM-per-socket estimate is the mean 200 GB, while the
mode-derived estimate the claim describes is 100 GB. -/
theorem C5_counterexample :
    safe_sum numaLOTable "Memory (KiB)" / 1024 / 1024 = 600
    ∧ numaLO numaLOTable 600 = (8, 200)
    ∧ specNumaRamLO numaLOTable = 100 := by
  have e1 : modeCol (numaLOTable.colCells "CPU Sockets") = Except.ok 1 := rfl
  refine ⟨?_, ?_, ?_⟩
  · have h : safe_sum numaLOTable "Memory (KiB)"
        = 104857600 + (104857600 + (419430400 + 0)) := by
      simp [safe_sum, numaLOTable, Table.col, idxOfCol, sumNum, Cell.toNum]
    rw [h]
    norm_num
  · have e2 : ((numaLOTable.colCells "CPU Cores").zip
        (numaLOTable.colCells "CPU Sockets")).mapM (fun p => divCells p.1 p.2)
        = Except.ok [Cell.num (8 / 1), Cell.num (8 / 1), Cell.num (8 / 1)] := rfl
    have e3 : (8 : ℚ) / 1 = 8 := by norm_num
    have e4 : modeCol [Cell.num 8, Cell.num 8, Cell.num 8] = Except.ok 8 := rfl
    simp only [numaLO, e1, e2, e3, e4]
    norm_num [numaLOTable]
  · have f2 : modeCol (numaLOTable.colCells "Memory (KiB)")
        = Except.ok 104857600 := rfl
    simp only [specNumaRamLO, e1, f2]
    norm_num

/-- C5 (amended): the cores-per-socket estimate is the statistical mode in
both variants, and the RAM-per-socket estimate is mode-derived in the RVTools
variant — but in the Live Optics variant it is the MEAN RAM per host
(`cur_total_ram_gb / len(df_h)`) divided by the sockets mode; on an empty
host set (or failed modes) the estimates are zero and nothing is raised. -/
theorem C5_numa_mode (t u : Table) (sm cm rm smu cmu totalRamGB : ℚ)
    (cps : List Cell)
    (h1 : modeCol (t.colCells "# CPU") = .ok sm)
    (h2 : modeCol (t.colCells "Cores per CPU") = .ok cm)
    (h3 : modeCol (t.colCells "# Memory") = .ok rm)
    (h4 : modeCol (u.colCells "CPU Sockets") = .ok smu)
    (h5 : ((u.colCells "CPU Cores").zip (u.colCells "CPU Sockets")).mapM
        (fun p => divCells p.1 p.2) = .ok cps)
    (h6 : modeCol cps = .ok cmu) :
    numaRVTools t = (cm, if sm = 0 then 0 else rm / 1024 / sm)
    ∧ numaLO u totalRamGB = (cmu, if smu = 0 then 0 else totalRamGB / u.rows.length / smu)
    ∧ numaRVTools ⟨t.cols, []⟩ = (0, 0)
    ∧ numaLO ⟨u.cols, []⟩ totalRamGB = (0, 0) := by
  refine ⟨?_, ?_, ?_, ?_⟩
  · simp only [numaRVTools, h1, h2, h3]
  · simp only [numaLO, h4, h5, h6]
  · have hc : Table.colCells ⟨t.cols, []⟩ "# CPU" = [] := by
      unfold Table.colCells Table.col
      cases idxOfCol (Table.mk t.cols []).cols "# CPU" <;> rfl
    simp only [numaRVTools, hc]
    rfl
  · have hc : Table.colCells ⟨u.cols, []⟩ "CPU Sockets" = [] := by
      unfold Table.colCells Table.col
      cases idxOfCol (Table.mk u.cols []).cols "CPU Sockets" <;> rfl
    simp only [numaLO, hc]
    rfl

/-- Witness for C5: the amended theorem applied to the two concrete host
sheets, with every mode hypothesis discharged by evaluation. -/
theorem C5_witness :
    numaRVTools numaRVTable = (10, 256)
    ∧ numaLO numaLOTable 600 = (8, 200)
    ∧ numaRVTools ⟨numaRVTable.cols, []⟩ = (0, 0)
    ∧ numaLO ⟨numaLOTable.cols, []⟩ 600 = (0, 0) := by
  have h5 : ((numaLOTable.colCells "CPU Cores").zip
      (numaLOTable.colCells "CPU Sockets")).mapM (fun p => divCells p.1 p.2)
      = Except.ok [Cell.num 8, Cell.num 8, Cell.num 8] := by
    have hz : ((numaLOTable.colCells "CPU Cores").zip
        (numaLOTable.colCells "CPU Sockets")).mapM (fun p => divCells p.1 p.2)
        = Except.ok [Cell.num (8 / 1), Cell.num (8 / 1), Cell.num (8 / 1)] := rfl
    rw [hz]
    norm_num
  have h := C5_numa_mode numaRVTable numaLOTable 2 10 524288 1 8 600
    [Cell.num 8, Cell.num 8, Cell.num 8] rfl rfl rfl rfl h5 rfl
  refine ⟨?_, ?_, h.2.2.1, h.2.2.2⟩
  · rw [h.1]
    norm_num
  · rw [h.2.1]
    norm_num [numaLOTable]

/-- A vDatastore sheet whose used capacity exceeds its total capacity. -/
def dsNegTable : Table := ⟨["Capacity TB", "In Use TB"], [[.num 1, .num 2]]⟩

/-- A workbook holding an empty `vInfo` sheet and the datastore sheet above. -/
def dsNegWorkbook : Workbook := [("vInfo", ⟨[], []⟩), ("vDatastore", dsNegTable)]

lemma except_bind_ok {α β : Type} (a : α) (f : α → Except Unit β) :
    (Except.ok a >>= f : Except Unit β) = f a := rfl

/-- C8 counterexample: a workbook with an empty `vInfo` sheet and a datastore
sheet reporting 1 TB of capacity but 2 TB in use parses successfully, and the
free-storage total of the produced facts is `-1` — negative. -/
theorem C8_counterexample :
    (processRVTools dsNegWorkbook "All Clusters" true).map Facts.ds_free
      = .ok (-1)
    ∧ ((-1 : ℚ) < 0) := by
  constructor
  · have hinfo : lookupSheet dsNegWorkbook "vInfo" = some (Table.mk [] []) := by
      decide
    have hvh : vHostBlock dsNegWorkbook "All Clusters"
        = .ok (0, 0, 0, (0, 0), some 0) := rfl
    have hdf : addMemoryGB (powerFilter "Powerstate"
        (clusterFilter (stripCols (Table.mk [] [])) "All Clusters") true)
        = Table.mk [] [] := by decide
    have hds : dsRVTools dsNegWorkbook "All Clusters" = (1, 2, -1) := by
      have h1 : lookupSheet dsNegWorkbook "vDatastore" = some dsNegTable := by
        decide
      have h2 : stripCols dsNegTable = dsNegTable := by decide
      have e1 : ("Capacity" : String) ++ " MiB" = "Capacity MiB" := rfl
      have e2 : ("Capacity" : String) ++ " MB" = "Capacity MB" := rfl
      have e3 : ("Capacity" : String) ++ " TB" = "Capacity TB" := rfl
      have e4 : ("Capacity" : String) ++ " GB" = "Capacity GB" := rfl
      have f1 : ("In Use" : String) ++ " MiB" = "In Use MiB" := rfl
      have f2 : ("In Use" : String) ++ " MB" = "In Use MB" := rfl
      have f3 : ("In Use" : String) ++ " TB" = "In Use TB" := rfl
      have f4 : ("In Use" : String) ++ " GB" = "In Use GB" := rfl
      simp only [dsRVTools, h1, h2]
      simp [dsNegTable, clusterFilter, get_rvtools_tb, e1, e2, e3, e4,
        f1, f2, f3, f4, safe_sum, Table.col, idxOfCol, sumNum, Cell.toNum]
      norm_num
    simp only [processRVTools, hinfo, hvh, except_bind_ok, hdf, hds]
    norm_num [Except.map]
  · norm_num

/-- C8 (amended): counts are natural numbers by construction, and a column
aggregation is non-negative whenever the coerced cells are non-negative (so
every column-sum total of the facts is non-negative on such input); but the
inventory-variant free-storage total is computed as `cap - used` with no
clamping, so it is negative whenever used capacity exceeds total capacity. -/
theorem C8_invariants (t : Table) (c : String) (wb : Workbook) (sel : String)
    (h : ∀ r ∈ t.rows, ∀ x ∈ r, 0 ≤ (x.toNum.getD 0 : ℚ)) :
    0 ≤ safe_sum t c
    ∧ (dsRVTools wb sel).2.2 = (dsRVTools wb sel).1 - (dsRVTools wb sel).2.1 := by
  constructor
  · unfold safe_sum Table.col
    cases hidx : idxOfCol t.cols c with
    | none => simp
    | some i =>
        simp only [Option.map_some']
        unfold sumNum
        apply List.sum_nonneg
        intro q hq
        rw [List.map_map] at hq
        rcases List.mem_map.mp hq with ⟨r, hr, rfl⟩
        simp only [Function.comp_apply]
        by_cases hi : i < r.length
        · rw [List.getD_eq_getElem r Cell.empty hi]
          exact h r hr _ (List.getElem_mem hi)
        · rw [List.getD_eq_default r Cell.empty (le_of_not_lt hi)]
          simp [Cell.toNum]
  · unfold dsRVTools
    cases lookupSheet wb "vDatastore" with
    | none => norm_num
    | some t0 => rfl

/-- Witness for C8: the theorem applied to a concrete table of non-negative
(or non-numeric) cells and to the concrete datastore workbook. -/
theorem C8_witness :
    0 ≤ safe_sum aggWitnessTable "CPUs"
    ∧ (dsRVTools dsNegWorkbook "All Clusters").2.2
      = (dsRVTools dsNegWorkbook "All Clusters").1
        - (dsRVTools dsNegWorkbook "All Clusters").2.1 :=
  C8_invariants aggWitnessTable "CPUs" dsNegWorkbook "All Clusters" (by decide)

lemma safe_sum_of_not_mem (t : Table) (c : String) (h : c ∉ t.cols) :
    safe_sum t c = 0 := by
  unfold safe_sum Table.col
  rw [idxOfCol_eq_none_of_not_mem t.cols c h]
  rfl

/-- A `vInfo` sheet with one data row but no `CPUs` column. -/
def badInfoWorkbook : Workbook := [("vInfo", ⟨["VM"], [[.str "vm1"]]⟩)]

/-- A workbook carrying only the two Live Optics signature sheets. -/
def loSigWorkbook : Workbook := [("VMs", ⟨[], []⟩), ("ESX Hosts", ⟨[], []⟩)]

/-- C9 (amended): when neither `vInfo` nor both of `VMs` and `ESX Hosts` are
present the pipeline stops with a fatal input error and no facts are
produced; when a signature set is present the corresponding variant is
selected (`vInfo` taking precedence) — but selection alone does not
guarantee a complete result: the selected parser can still abort on a
malformed sheet, as a non-empty `vInfo` without a `CPUs` column shows. -/
theorem C9_format_detection (wb : Workbook) (sel : String) (io : Bool)
    (b : LoBasis) :
    (detectSource wb = none ↔
      lookupSheet wb "vInfo" = none
      ∧ (lookupSheet wb "VMs" = none ∨ lookupSheet wb "ESX Hosts" = none))
    ∧ (detectSource wb = none → runPipeline wb sel io b = .error ())
    ∧ ((lookupSheet wb "vInfo").isSome →
        detectSource wb = some .RVTools
        ∧ runPipeline wb sel io b = processRVTools wb sel io)
    ∧ (lookupSheet wb "vInfo" = none → (lookupSheet wb "VMs").isSome →
        (lookupSheet wb "ESX Hosts").isSome →
        detectSource wb = some .LiveOptics
        ∧ runPipeline wb sel io b = processLiveOptics wb sel io b) := by
  refine ⟨⟨?_, ?_⟩, ?_, ?_, ?_⟩
  · intro h
    unfold detectSource at h
    by_cases h1 : (lookupSheet wb "vInfo").isSome
    · rw [if_pos h1] at h
      exact absurd h (by simp)
    · rw [if_neg h1] at h
      refine ⟨Option.not_isSome_iff_eq_none.mp h1, ?_⟩
      by_cases h23 : (lookupSheet wb "VMs").isSome ∧ (lookupSheet wb "ESX Hosts").isSome
      · rw [if_pos h23] at h
        exact absurd h (by simp)
      · rcases not_and_or.mp h23 with h2 | h3
        · exact Or.inl (Option.not_isSome_iff_eq_none.mp h2)
        · exact Or.inr (Option.not_isSome_iff_eq_none.mp h3)
  · rintro ⟨hv, hor⟩
    unfold detectSource
    have hcond : ¬((lookupSheet wb "VMs").isSome ∧ (lookupSheet wb "ESX Hosts").isSome) := by
      rintro ⟨ha, hb⟩
      rcases hor with h2 | h3
      · rw [h2] at ha
        simp at ha
      · rw [h3] at hb
        simp at hb
    rw [if_neg (by simp [hv]), if_neg hcond]
  · intro h
    unfold runPipeline
    rw [h]
  · intro h1
    have hd : detectSource wb = some .RVTools := by
      unfold detectSource
      rw [if_pos h1]
    refine ⟨hd, ?_⟩
    unfold runPipeline
    rw [hd]
  · intro hv h2 h3
    have hd : detectSource wb = some .LiveOptics := by
      unfold detectSource
      rw [if_neg (by simp [hv]), if_pos ⟨h2, h3⟩]
    refine ⟨hd, ?_⟩
    unfold runPipeline
    rw [hd]

/-- C9 counterexample: a workbook whose `vInfo` signature sheet is present
(so the RVTools variant is selected) but holds a data row without a `CPUs`
column makes the parser abort — a signature set alone does not guarantee a
complete result. -/
theorem C9_counterexample :
    detectSource badInfoWorkbook = some .RVTools
    ∧ runPipeline badInfoWorkbook "All Clusters" true .p95 = .error () := by
  constructor
  · decide
  · rfl

/-- Witness for C9: the theorem applied to an empty workbook (no signature:
fatal error) and to a workbook with the Live Optics signature pair. -/
theorem C9_witness :
    runPipeline [] "All Clusters" true .p95 = .error ()
    ∧ detectSource loSigWorkbook = some .LiveOptics := by
  have h1 := (C9_format_detection [] "All Clusters" true .p95).2.1 (by decide)
  have h2 := (C9_format_detection loSigWorkbook "All Clusters" true .p95).2.2.2
    (by decide) (by decide) (by decide)
  exact ⟨h1, h2.1⟩

/-- An `ESX Performance` sheet with no demand columns at all. -/
def perfWorkbook : Workbook := [("ESX Performance", ⟨["Host"], [[.str "h1"]]⟩)]

/-- C10 (confirmed): with the `ESX Performance` sheet present the
has-performance flag is true no matter which demand columns exist; under the
95th-percentile basis a missing `95th Percentile CPU (GHz)` column makes the
demand 0.95 times the `Peak CPU (GHz)` sum, which is itself 0 when that
column is also absent. -/
theorem C10_perf_fallback (wb : Workbook) (sel : String) (dfp : Table)
    (hp : lookupSheet wb "ESX Performance" = some dfp) :
    (perfBlock wb sel .p95).1 = true
    ∧ ("95th Percentile CPU (GHz)" ∉ (clusterFilter (stripCols dfp) sel).cols →
        (perfBlock wb sel .p95).2
          = safe_sum (clusterFilter (stripCols dfp) sel) "Peak CPU (GHz)" * 0.95)
    ∧ ("95th Percentile CPU (GHz)" ∉ (clusterFilter (stripCols dfp) sel).cols →
        "Peak CPU (GHz)" ∉ (clusterFilter (stripCols dfp) sel).cols →
        (perfBlock wb sel .p95).2 = 0) := by
  refine ⟨?_, ?_, ?_⟩
  · simp [perfBlock, hp]
  · intro hn
    simp [perfBlock, hp, hn]
  · intro hn hpk
    simp [perfBlock, hp, hn, safe_sum_of_not_mem _ _ hpk]

/-- Witness for C10: the theorem applied to a performance sheet lacking every
demand column — the flag is still true and the demand is 0. -/
theorem C10_witness :
    (perfBlock perfWorkbook "All Clusters" .p95).1 = true
    ∧ (perfBlock perfWorkbook "All Clusters" .p95).2 = 0 := by
  have h := C10_perf_fallback perfWorkbook "All Clusters"
    ⟨["Host"], [[.str "h1"]]⟩ (by decide)
  exact ⟨h.1, h.2.2 (by decide) (by decide)⟩
